import Mathlib

/-!
Verification development for the quiz-creator backend (`app.py`).

The program is a small Flask service: it receives an uploaded PDF, extracts
its text with PyMuPDF (`fitz`), sends an excerpt of the text to an external
generative-model backend, parses the returned content with `json.loads`, checks
that the parsed value has the two expected top-level keys, and returns it.

Shallow embedding conventions:
* External collaborators (PyMuPDF extraction, the network call made by the
  OpenAI client) are modelled as explicit parameters: the extraction outcome is
  an `Except String String` (exception message, or the extracted text), and the
  network behaviour is a function from the rendered prompt to an `ApiResult`.
* `json.loads` is modelled by an executable recursive-descent JSON reader
  (`parseJson`) over the character list of the input, following the JSON
  grammar that `json.loads` accepts: optional surrounding whitespace, objects,
  arrays, strings with escapes, `true`/`false`/`null`, and numbers (kept as
  their lexeme, since no code under verification inspects numeric values).
  Duplicate object keys follow Python dict semantics: the first occurrence
  keeps its position, the last value wins.
* Python exceptions are values: `PipelineErr` carries the message used by
  `str(e)`, and endpoint responses are `(body, HTTP status)` pairs together
  with the list of network calls (rendered prompts) performed during the
  request, so that "no network call is made" is expressible.
-/

namespace Quiz

/-- JSON values as produced by `json.loads`.  Numbers keep their source
lexeme; object member lists are in insertion order with unique keys. -/
inductive Json where
  | null
  | bool (b : Bool)
  | num (lexeme : String)
  | str (s : String)
  | arr (elems : List Json)
  | obj (members : List (String × Json))

/-- The whitespace characters `json.loads` skips between tokens. -/
def isJsonWs (c : Char) : Bool :=
  c == ' ' || c == '\t' || c == '\n' || c == '\r'

/-- Drop leading JSON whitespace. -/
def skipWs : List Char → List Char
  | [] => []
  | c :: cs => if isJsonWs c then skipWs cs else c :: cs

/-- Whitespace stripped by Python `str.strip()`. -/
def isPyWs (c : Char) : Bool :=
  c == ' ' || c == '\t' || c == '\n' || c == '\r' ||
  c == Char.ofNat 11 || c == Char.ofNat 12

/-- Drop leading Python whitespace. -/
def dropPyWs : List Char → List Char
  | [] => []
  | c :: cs => if isPyWs c then dropPyWs cs else c :: cs

/-- Python `s.strip()`: remove whitespace from both ends. -/
def pyStrip (s : String) : String :=
  ⟨(dropPyWs (dropPyWs s.data.reverse).reverse)⟩

/-- Python `s.lower()` (ASCII case folding suffices here). -/
def pyLower (s : String) : String := ⟨s.data.map Char.toLower⟩

/-- Does `hay` begin with `needle`? -/
def listStartsWith : List Char → List Char → Bool
  | [], _ => true
  | _ :: _, [] => false
  | a :: as, b :: bs => a == b && listStartsWith as bs

/-- Python `s.endswith(t)`. -/
def pyEndsWith (s t : String) : Bool :=
  listStartsWith t.data.reverse s.data.reverse

/-- Does `hay` contain `needle` as a contiguous substring (Python `t in s`
for strings)? -/
def listContainsSub (needle : List Char) : List Char → Bool
  | [] => needle.isEmpty
  | c :: cs => listStartsWith needle (c :: cs) || listContainsSub needle cs

/-- Hexadecimal digit value, as in `\uXXXX` escapes. -/
def hexVal (c : Char) : Option Nat :=
  if c.isDigit then some (c.toNat - 48)
  else if 'a' ≤ c ∧ c ≤ 'f' then some (c.toNat - 87)
  else if 'A' ≤ c ∧ c ≤ 'F' then some (c.toNat - 55)
  else none

/-- Single-character JSON string escapes. -/
def escChar (e : Char) : Option Char :=
  if e = '"' then some '"'
  else if e = '\\' then some '\\'
  else if e = '/' then some '/'
  else if e = 'b' then some (Char.ofNat 8)
  else if e = 'f' then some (Char.ofNat 12)
  else if e = 'n' then some '\n'
  else if e = 'r' then some '\r'
  else if e = 't' then some '\t'
  else none

/-- Parse the body of a JSON string (the opening quote already consumed);
returns the decoded string and the remaining input. -/
def parseStringBody : List Char → Option (String × List Char)
  | [] => none
  | c :: cs =>
    if c = '"' then some ("", cs)
    else if c = '\\' then
      match cs with
      | [] => none
      | e :: cs1 =>
        if e = 'u' then
          match cs1 with
          | h1 :: h2 :: h3 :: h4 :: cs2 =>
            match hexVal h1, hexVal h2, hexVal h3, hexVal h4 with
            | some a, some b, some c2, some d =>
              match parseStringBody cs2 with
              | some (s, rest) =>
                some (⟨Char.ofNat (((a * 16 + b) * 16 + c2) * 16 + d) :: s.data⟩, rest)
              | none => none
            | _, _, _, _ => none
          | _ => none
        else
          match escChar e with
          | some ch =>
            match parseStringBody cs1 with
            | some (s, rest) => some (⟨ch :: s.data⟩, rest)
            | none => none
          | none => none
    else
      match parseStringBody cs with
      | some (s, rest) => some (⟨c :: s.data⟩, rest)
      | none => none

/-- Take a maximal run of decimal digits. -/
def takeDigits : List Char → List Char × List Char
  | [] => ([], [])
  | c :: cs =>
    if c.isDigit then
      let (ds, rest) := takeDigits cs
      (c :: ds, rest)
    else ([], c :: cs)

/-- Integer part of a JSON number: `0`, or a nonzero digit followed by
digits. -/
def parseNumInt : List Char → Option (List Char × List Char)
  | [] => none
  | c :: cs =>
    if c = '0' then some ([c], cs)
    else if c.isDigit then
      let (ds, rest) := takeDigits cs
      some (c :: ds, rest)
    else none

/-- Optional fraction part of a JSON number. -/
def parseNumFrac : List Char → Option (List Char × List Char)
  | '.' :: cs =>
    match takeDigits cs with
    | ([], _) => none
    | (ds, rest) => some ('.' :: ds, rest)
  | cs => some ([], cs)

/-- Optional exponent part of a JSON number. -/
def parseNumExp : List Char → Option (List Char × List Char)
  | [] => some ([], [])
  | c :: cs =>
    if c = 'e' ∨ c = 'E' then
      match cs with
      | [] => none
      | s :: cs1 =>
        if s = '+' ∨ s = '-' then
          match takeDigits cs1 with
          | ([], _) => none
          | (ds, rest) => some (c :: s :: ds, rest)
        else
          match takeDigits cs with
          | ([], _) => none
          | (ds, rest) => some (c :: ds, rest)
    else some ([], c :: cs)

/-- A JSON number lexeme: optional sign, integer part, optional fraction and
exponent. -/
def parseNumber (cs : List Char) : Option (String × List Char) :=
  let (sign, cs1) :=
    match cs with
    | '-' :: rest => (['-'], rest)
    | _ => (([] : List Char), cs)
  match parseNumInt cs1 with
  | none => none
  | some (ip, cs2) =>
    match parseNumFrac cs2 with
    | none => none
    | some (fp, cs3) =>
      match parseNumExp cs3 with
      | none => none
      | some (ep, cs4) => some (⟨sign ++ ip ++ fp ++ ep⟩, cs4)

/-- Python dict insertion: a repeated key keeps its first position and takes
the new value, a fresh key is appended. -/
def dictInsert (d : List (String × Json)) (k : String) (v : Json) :
    List (String × Json) :=
  if d.any (fun kv => kv.1 == k) then
    d.map (fun kv => if kv.1 == k then (kv.1, v) else kv)
  else d ++ [(k, v)]

/-- Build a Python dict from parsed members in order (`dict(pairs)`
semantics, as used by `json.loads` for objects). -/
def buildDict (pairs : List (String × Json)) : List (String × Json) :=
  pairs.foldl (fun d kv => dictInsert d kv.1 kv.2) []

mutual

/-- Fuelled JSON value reader: one value starting at the head of the input
(leading whitespace already skipped), returning the value and the rest. -/
def parseValueF : Nat → List Char → Option (Json × List Char)
  | 0, _ => none
  | _ + 1, [] => none
  | n + 1, c :: cs =>
    if c = '{' then
      match skipWs cs with
      | '}' :: rest => some (.obj [], rest)
      | cs1 =>
        match parseMembersF n cs1 with
        | some (pairs, rest) => some (.obj (buildDict pairs), rest)
        | none => none
    else if c = '[' then
      match skipWs cs with
      | ']' :: rest => some (.arr [], rest)
      | cs1 =>
        match parseElemsF n cs1 with
        | some (vs, rest) => some (.arr vs, rest)
        | none => none
    else if c = '"' then
      match parseStringBody cs with
      | some (s, rest) => some (.str s, rest)
      | none => none
    else if c = 't' then
      match cs with
      | 'r' :: 'u' :: 'e' :: rest => some (.bool true, rest)
      | _ => none
    else if c = 'f' then
      match cs with
      | 'a' :: 'l' :: 's' :: 'e' :: rest => some (.bool false, rest)
      | _ => none
    else if c = 'n' then
      match cs with
      | 'u' :: 'l' :: 'l' :: rest => some (.null, rest)
      | _ => none
    else if c = '-' ∨ c.isDigit then
      match parseNumber (c :: cs) with
      | some (lex, rest) => some (.num lex, rest)
      | none => none
    else none

/-- One or more `"key": value` members followed by `}`. -/
def parseMembersF : Nat → List Char → Option (List (String × Json) × List Char)
  | 0, _ => none
  | n + 1, cs =>
    match skipWs cs with
    | '"' :: cs1 =>
      match parseStringBody cs1 with
      | some (k, rest1) =>
        match skipWs rest1 with
        | ':' :: rest2 =>
          match parseValueF n (skipWs rest2) with
          | some (v, rest3) =>
            match skipWs rest3 with
            | ',' :: rest4 =>
              match parseMembersF n rest4 with
              | some (pairs, rest5) => some ((k, v) :: pairs, rest5)
              | none => none
            | '}' :: rest4 => some ([(k, v)], rest4)
            | _ => none
          | none => none
        | _ => none
      | none => none
    | _ => none

/-- One or more array elements followed by `]`. -/
def parseElemsF : Nat → List Char → Option (List Json × List Char)
  | 0, _ => none
  | n + 1, cs =>
    match parseValueF n (skipWs cs) with
    | some (v, rest) =>
      match skipWs rest with
      | ',' :: rest1 =>
        match parseElemsF n rest1 with
        | some (vs, rest2) => some (v :: vs, rest2)
        | none => none
      | ']' :: rest1 => some ([v], rest1)
      | _ => none
    | none => none

end

/-- Model of `json.loads`: skip surrounding whitespace, read one value, and
demand that nothing but whitespace follows.  `none` is a `JSONDecodeError`.
The fuel `2 * length + 2` dominates the recursion depth, in which every two
steps consume at least one input character. -/
def parseJson (s : String) : Option Json :=
  match parseValueF (2 * s.data.length + 2) (skipWs s.data) with
  | some (v, rest) => if skipWs rest = [] then some v else none
  | none => none

/-- First value bound to a key in a parsed object, if present. -/
def lookupKey : List (String × Json) → String → Option Json
  | [], _ => none
  | (k1, v) :: rest, k => if k1 == k then some v else lookupKey rest k

/-- Python `key in d` for a dict: membership among the keys. -/
def hasKey (kvs : List (String × Json)) (k : String) : Bool :=
  kvs.any (fun kv => kv.1 == k)

/-- Python `key in x` for an arbitrary `json.loads` result: key membership
for dicts, element equality for lists, substring for strings, and a
`TypeError` for the non-container values. -/
def pyContains (j : Json) (k : String) : Except String Bool :=
  match j with
  | .obj kvs => .ok (hasKey kvs k)
  | .arr xs =>
    .ok (xs.any (fun x => match x with | .str s => s == k | _ => false))
  | .str s => .ok (listContainsSub k.data s.data)
  | .null => .error "argument of type 'NoneType' is not iterable"
  | .bool _ => .error "argument of type 'bool' is not iterable"
  | .num _ => .error "argument of type 'float' is not iterable"

/-- Outcome of the one network call
(`client.chat.completions.create(...)`): an `openai.APIError`, or the
response content string. -/
inductive ApiResult where
  | apiError (msg : String)
  | ok (content : String)

/-- The Python exceptions the pipeline can raise, carrying the message
`str(e)` yields. -/
inductive PipelineErr where
  | connectionError (msg : String)
  | connectionAborted (msg : String)
  | valueError (msg : String)

/-- Python `str(e)` on the exceptions above. -/
def errMsg : PipelineErr → String
  | .connectionError m => m
  | .connectionAborted m => m
  | .valueError m => m

/-- Python `text[:4000]`: the first 4000 characters (the whole string when it
is shorter). -/
def excerpt (text : String) : String := ⟨text.data.take 4000⟩

/-- The prompt f-string up to the interpolation of `text[:4000]`
(with `num_mcq = 5` and `num_tf = 5` already substituted). -/
def promptPart1 : String :=
  "\n    Based on the following text, please generate a quiz. The quiz should contain 5 multiple-choice questions\n    and 5 true/false questions.\n\n    The text is as follows:\n    ---\n    "

/-- The prompt f-string after the interpolation of `text[:4000]`. -/
def promptPart2 : String :=
  "\n    ---\n\n    Please format the output as a single JSON object with two keys: \"multiple_choice\" and \"true_false\".\n    - Each element in the \"multiple_choice\" array should be an object with \"question\", \"options\" (an array of 4 strings), and \"answer\" (the correct option string).\n    - Each element in the \"true_false\" array should be an object with \"question\" and \"answer\" (either \"True\" or \"False\").\n\n    Example of the required JSON format:\n    \x7b\n      \"multiple_choice\": [\n        \x7b\n          \"question\": \"What is the capital of France?\",\n          \"options\": [\"London\", \"Berlin\", \"Paris\", \"Madrid\"],\n          \"answer\": \"Paris\"\n        \x7d\n      ],\n      \"true_false\": [\n        \x7b\n          \"question\": \"The sky is blue.\",\n          \"answer\": \"True\"\n        \x7d\n      ]\n    \x7d\n    "

/-- The rendered prompt: the f-string with the truncated text spliced in. -/
def buildPrompt (text : String) : String :=
  promptPart1 ++ excerpt text ++ promptPart2

/-- `generate_quiz_from_text(text)`.  `clientOk` is whether `openai.OpenAI()`
succeeded at process start (`client is not None`); `api` is the network
behaviour on the rendered prompt.  Returns the result (parsed quiz or raised
exception) together with the list of network calls made. -/
def generate_quiz_from_text (clientOk : Bool) (api : String → ApiResult)
    (text : String) : Except PipelineErr Json × List String :=
  if clientOk = false then
    (.error (.connectionError "OpenAI client is not initialized. Check your API key."), [])
  else
    let prompt := buildPrompt text
    match api prompt with
    | .apiError e =>
      (.error (.connectionAborted ("Failed to get a valid response from the AI model: " ++ e)),
        [prompt])
    | .ok content =>
      match parseJson content with
      | some quiz => (.ok quiz, [prompt])
      | none =>
        (.error (.valueError "The AI model returned a response that was not valid JSON."),
          [prompt])

/-- Response bodies of the endpoint: either `jsonify({"error": msg})` or the
quiz value `jsonify(quiz_data)` (serialization by Flask is outside the
model; the body carries the value handed to `jsonify`). -/
inductive HttpBody where
  | errorBody (msg : String)
  | quizBody (j : Json)

/-- What one request produces: response body, HTTP status code, and the
network calls (rendered prompts) performed along the way. -/
structure EndpointResult where
  body : HttpBody
  status : Nat
  networkCalls : List String

/-- The key-presence validation of the endpoint:
`if "multiple_choice" not in quiz_data or "true_false" not in quiz_data`,
with Python's short-circuit `or` and its possible `TypeError`s; a missing
key raises `ValueError("The generated quiz is missing required sections.")`,
which the generic handler surfaces with status 500. -/
def handleQuizData (quiz_data : Json) (calls : List String) : EndpointResult :=
  match pyContains quiz_data "multiple_choice" with
  | .error te => ⟨.errorBody ("An internal error occurred: " ++ te), 500, calls⟩
  | .ok mcIn =>
    if mcIn = false then
      ⟨.errorBody "An internal error occurred: The generated quiz is missing required sections.",
        500, calls⟩
    else
      match pyContains quiz_data "true_false" with
      | .error te => ⟨.errorBody ("An internal error occurred: " ++ te), 500, calls⟩
      | .ok tfIn =>
        if tfIn = false then
          ⟨.errorBody "An internal error occurred: The generated quiz is missing required sections.",
            500, calls⟩
        else ⟨.quizBody quiz_data, 200, calls⟩

/-- What the endpoint does with the outcome of
`generate_quiz_from_text(text)`: an exception lands in the generic handler;
a parsed value goes through the key-presence validation. -/
def handleGenerated : Except PipelineErr Json × List String → EndpointResult
  | (.error e, calls) =>
    ⟨.errorBody ("An internal error occurred: " ++ errMsg e), 500, calls⟩
  | (.ok quiz_data, calls) => handleQuizData quiz_data calls

/-- The `try:` block of `generate_quiz_endpoint`.  `fitzResult` models
`fitz.open(...)` plus page-text concatenation: an exception message, or the
extracted text.  Exceptions land in the generic handler, which returns
`"An internal error occurred: " + str(e)` with status 500. -/
def quizTryBlock (clientOk : Bool) (fitzResult : Except String String)
    (api : String → ApiResult) : EndpointResult :=
  match fitzResult with
  | .error e => ⟨.errorBody ("An internal error occurred: " ++ e), 500, []⟩
  | .ok text =>
    if pyStrip text = "" then
      ⟨.errorBody "Could not extract any text from the PDF.", 400, []⟩
    else handleGenerated (generate_quiz_from_text clientOk api text)

/-- `generate_quiz_endpoint`: the upload checks followed by the `try:`
block. -/
def generate_quiz_endpoint (hasPdf : Bool) (filename : String)
    (clientOk : Bool) (fitzResult : Except String String)
    (api : String → ApiResult) : EndpointResult :=
  if hasPdf = false then ⟨.errorBody "No PDF file provided", 400, []⟩
  else if filename = "" then ⟨.errorBody "No file selected", 400, []⟩
  else if pyEndsWith (pyLower filename) ".pdf" = false then
    ⟨.errorBody "Invalid file type, please upload a PDF", 400, []⟩
  else quizTryBlock clientOk fitzResult api

/-- The characters of the leading fence marker line, tagged as JSON:
three backticks, `json`, newline. -/
def fenceMark1 : List Char :=
  [Char.ofNat 96, Char.ofNat 96, Char.ofNat 96, 'j', 's', 'o', 'n', '\n']

/-- The characters of the trailing fence marker: newline, three backticks. -/
def fenceMark2 : List Char :=
  ['\n', Char.ofNat 96, Char.ofNat 96, Char.ofNat 96]

/-- Wrap a raw model output in a fenced block explicitly tagged as JSON. -/
def fenceWrap (s : String) : String := ⟨fenceMark1 ++ s.data ++ fenceMark2⟩

/-- Validation of one multiple-choice entry, following the spec's words
(§4.4 step 4): `question` a non-empty string, `options` an array of exactly
4 strings, `answer` a string equal to one element of `options`.  The code
under verification contains no counterpart of this check; it is stated here
only to compare the code's behaviour against the spec. -/
def specValidMcEntry (j : Json) : Bool :=
  match j with
  | .obj kvs =>
    (match lookupKey kvs "question" with
     | some (.str q) => q != ""
     | _ => false) &&
    (match lookupKey kvs "options" with
     | some (.arr os) =>
       (os.length == 4) &&
       os.all (fun o => match o with | .str _ => true | _ => false)
     | _ => false) &&
    (match lookupKey kvs "options", lookupKey kvs "answer" with
     | some (.arr os), some (.str a) =>
       os.any (fun o => match o with | .str s => s == a | _ => false)
     | _, _ => false)
  | _ => false

/-- Validation of one true/false entry, following the spec's words
(§4.4 step 5): `question` a non-empty string, `answer` the case-sensitive
string literal `"True"` or `"False"` (not a boolean).  The code under
verification contains no counterpart of this check. -/
def specValidTfEntry (j : Json) : Bool :=
  match j with
  | .obj kvs =>
    (match lookupKey kvs "question" with
     | some (.str q) => q != ""
     | _ => false) &&
    (match lookupKey kvs "answer" with
     | some (.str a) => a == "True" || a == "False"
     | _ => false)
  | _ => false

/-- A network behaviour used by witnesses at inputs where the call never
happens or its content is irrelevant. -/
def apiConst : String → ApiResult := fun _ => .ok "unused"

/-- A well-formed model response with both top-level keys and no entries. -/
def okQuizStr : String := "\x7b\"multiple_choice\":[],\"true_false\":[]\x7d"

/-- The parse of `okQuizStr`. -/
def okQuizJson : Json := .obj [("multiple_choice", .arr []), ("true_false", .arr [])]

/-- A multiple-choice entry with only 3 options (spec Scenario 4). -/
def badMcEntry : Json :=
  .obj [("question", .str "Q"), ("options", .arr [.str "a", .str "b", .str "c"]),
    ("answer", .str "a")]

/-- A model response whose one multiple-choice entry has only 3 options. -/
def badMcStr : String :=
  "\x7b\"multiple_choice\":[\x7b\"question\":\"Q\",\"options\":[\"a\",\"b\",\"c\"],\"answer\":\"a\"\x7d],\"true_false\":[]\x7d"

/-- The members of the parse of `badMcStr`. -/
def badMcKvs : List (String × Json) :=
  [("multiple_choice", .arr [badMcEntry]), ("true_false", .arr [])]

/-- A true/false entry whose `answer` is the boolean `true`, not the string
literal `"True"`. -/
def badTfEntry : Json := .obj [("question", .str "Q"), ("answer", .bool true)]

/-- A model response whose one true/false entry has a boolean answer. -/
def badTfStr : String :=
  "\x7b\"multiple_choice\":[],\"true_false\":[\x7b\"question\":\"Q\",\"answer\":true\x7d]\x7d"

/-- The members of the parse of `badTfStr`. -/
def badTfKvs : List (String × Json) :=
  [("multiple_choice", .arr []), ("true_false", .arr [badTfEntry])]

/-- A model response missing the `true_false` key. -/
def missingTfStr : String := "\x7b\"multiple_choice\":[]\x7d"

/-- The members of the parse of `missingTfStr`. -/
def missingTfKvs : List (String × Json) := [("multiple_choice", .arr [])]

/-- A model response with both required keys, one entry of each kind, and an
additional top-level key. -/
def extraKeyStr : String :=
  "\x7b\"multiple_choice\":[\x7b\"question\":\"Q1\",\"options\":[\"a\",\"b\",\"c\",\"d\"],\"answer\":\"a\"\x7d],\"true_false\":[\x7b\"question\":\"Q2\",\"answer\":\"True\"\x7d],\"extra\":\"kept\"\x7d"

/-- The members of the parse of `extraKeyStr`, in the model's order. -/
def extraKeyKvs : List (String × Json) :=
  [("multiple_choice",
     .arr [.obj [("question", .str "Q1"),
       ("options", .arr [.str "a", .str "b", .str "c", .str "d"]),
       ("answer", .str "a")]]),
   ("true_false", .arr [.obj [("question", .str "Q2"), ("answer", .str "True")]]),
   ("extra", .str "kept")]

/-- A text of 4001 characters, one past the truncation budget. -/
def longText : String := ⟨List.replicate 4001 'a'⟩

/-! Helper lemmas shared by the claim proofs. -/

/-- With a present PDF named `doc.pdf`, the endpoint is its `try:` block. -/
theorem endpoint_eq_try (clientOk : Bool) (fitzResult : Except String String)
    (api : String → ApiResult) :
    generate_quiz_endpoint true "doc.pdf" clientOk fitzResult api =
      quizTryBlock clientOk fitzResult api := rfl

/-- With an initialized client and a network answer `content`, generation
reduces to `json.loads` of the content. -/
theorem generate_ok (content text : String) (j : Json)
    (hp : parseJson content = some j) :
    generate_quiz_from_text true (fun _ => .ok content) text =
      (.ok j, [buildPrompt text]) := by
  simp [generate_quiz_from_text, hp]

/-- A lookup hit means the key is present. -/
theorem hasKey_of_lookupKey (kvs : List (String × Json)) (k : String) (v : Json)
    (h : lookupKey kvs k = some v) : hasKey kvs k = true := by
  induction kvs with
  | nil => simp [lookupKey] at h
  | cons kv rest ih =>
    obtain ⟨k1, v1⟩ := kv
    by_cases hk : k1 == k
    · simp [hasKey, hk]
    · simp only [lookupKey] at h
      rw [if_neg hk] at h
      have hr := ih h
      unfold hasKey at hr ⊢
      rw [List.any_cons, hr, Bool.or_true]

/-- With extraction succeeding, the `try:` block is the strip check followed
by generation. -/
theorem tryBlock_ok_text (clientOk : Bool) (api : String → ApiResult)
    (text : String) :
    quizTryBlock clientOk (.ok text) api =
      if pyStrip text = "" then
        ⟨.errorBody "Could not extract any text from the PDF.", 400, []⟩
      else handleGenerated (generate_quiz_from_text clientOk api text) := rfl

/-- The key-presence validation on an object, written out. -/
theorem handleQuizData_obj (kvs : List (String × Json)) (calls : List String) :
    handleQuizData (Json.obj kvs) calls =
      if hasKey kvs "multiple_choice" = false then
        ⟨.errorBody "An internal error occurred: The generated quiz is missing required sections.",
          500, calls⟩
      else if hasKey kvs "true_false" = false then
        ⟨.errorBody "An internal error occurred: The generated quiz is missing required sections.",
          500, calls⟩
      else ⟨.quizBody (Json.obj kvs), 200, calls⟩ := rfl

/-- Any parsed object with both required keys is returned as the quiz with
status 200, after one network call. -/
theorem tryBlock_success (text content : String) (kvs : List (String × Json))
    (ht : ¬ pyStrip text = "")
    (hp : parseJson content = some (Json.obj kvs))
    (hmc : hasKey kvs "multiple_choice" = true)
    (htf : hasKey kvs "true_false" = true) :
    quizTryBlock true (.ok text) (fun _ => .ok content) =
      ⟨.quizBody (Json.obj kvs), 200, [buildPrompt text]⟩ := by
  rw [tryBlock_ok_text, if_neg ht, generate_ok content text (Json.obj kvs) hp]
  show handleQuizData (Json.obj kvs) [buildPrompt text] = _
  rw [handleQuizData_obj, hmc, htf]
  rfl

/-- A parsed object lacking either required key yields the missing-sections
`ValueError`, surfaced by the generic handler with status 500. -/
theorem tryBlock_schema_missing (text content : String) (kvs : List (String × Json))
    (ht : ¬ pyStrip text = "")
    (hp : parseJson content = some (Json.obj kvs))
    (hmiss : hasKey kvs "multiple_choice" = false ∨ hasKey kvs "true_false" = false) :
    quizTryBlock true (.ok text) (fun _ => .ok content) =
      ⟨.errorBody "An internal error occurred: The generated quiz is missing required sections.",
        500, [buildPrompt text]⟩ := by
  rw [tryBlock_ok_text, if_neg ht, generate_ok content text (Json.obj kvs) hp]
  show handleQuizData (Json.obj kvs) [buildPrompt text] = _
  rw [handleQuizData_obj]
  rcases hmiss with h | h
  · simp [h]
  · cases hmc : hasKey kvs "multiple_choice" <;> simp [h, hmc]

/-- `skipWs` leaves a non-whitespace head alone. -/
theorem skipWs_not_ws (c : Char) (cs : List Char) (h : isJsonWs c = false) :
    skipWs (c :: cs) = c :: cs := by
  simp [skipWs, h]

/-- No JSON value starts with a backtick, whatever the fuel and the rest of
the input. -/
theorem parseValueF_backtick (n : Nat) (cs : List Char) :
    parseValueF n (Char.ofNat 96 :: cs) = none := by
  cases n with
  | zero => rfl
  | succ n => rfl

/-- The character list of a fence-wrapped output starts with a backtick. -/
theorem fenceWrap_data (s : String) :
    (fenceWrap s).data =
      Char.ofNat 96 :: (Char.ofNat 96 :: Char.ofNat 96 :: 'j' :: 's' :: 'o' :: 'n' ::
        '\n' :: (s.data ++ fenceMark2)) := by
  show fenceMark1 ++ s.data ++ fenceMark2 = _
  simp [fenceMark1, List.append_assoc]

/-- `json.loads` rejects every fence-wrapped output: a backtick cannot start
a JSON value. -/
theorem parseJson_fenceWrap (s : String) : parseJson (fenceWrap s) = none := by
  unfold parseJson
  rw [fenceWrap_data, skipWs_not_ws _ _ (by decide), parseValueF_backtick]

/-! The claims. -/

/-- C1 (counterexample): the pipeline does not reject a response whose
multiple-choice entry has only 3 options — it returns that response as the
quiz with status 200, refuting the claim that such a response fails with a
schema violation. -/
theorem C1_counterexample :
    generate_quiz_endpoint true "doc.pdf" true (.ok "some document text")
      (fun _ => .ok badMcStr) =
      ⟨.quizBody (.obj badMcKvs), 200, [buildPrompt "some document text"]⟩ := rfl

/-- C1 (amended): the code validates only the presence of the two top-level
keys.  Even when some multiple-choice entry violates the spec's per-entry
schema (`specValidMcEntry` is false for it), the whole parsed response is
returned unchanged with status 200 instead of a schema-violation failure. -/
theorem C1_no_mc_validation (text content : String) (kvs : List (String × Json))
    (es : List Json)
    (ht : ¬ pyStrip text = "")
    (hp : parseJson content = some (Json.obj kvs))
    (hmc : lookupKey kvs "multiple_choice" = some (Json.arr es))
    (htf : hasKey kvs "true_false" = true)
    (hbad : ∃ e ∈ es, specValidMcEntry e = false) :
    generate_quiz_endpoint true "doc.pdf" true (.ok text) (fun _ => .ok content) =
      ⟨.quizBody (Json.obj kvs), 200, [buildPrompt text]⟩ := by
  rw [endpoint_eq_try]
  exact tryBlock_success text content kvs ht hp (hasKey_of_lookupKey _ _ _ hmc) htf

/-- C1 witness: the 3-option response of Scenario 4 is returned as-is. -/
theorem C1_no_mc_validation_witness :
    generate_quiz_endpoint true "doc.pdf" true (.ok "hello")
      (fun _ => .ok badMcStr) =
      ⟨.quizBody (.obj badMcKvs), 200, [buildPrompt "hello"]⟩ :=
  C1_no_mc_validation "hello" badMcStr badMcKvs [badMcEntry] (by decide) rfl rfl rfl
    ⟨badMcEntry, List.Mem.head _, rfl⟩

/-- C2 (counterexample): fence wrapping is not transparent.  The same JSON
body succeeds when passed bare, but wrapped in a fenced JSON block it fails
`json.loads` and raises the invalid-JSON `ValueError`. -/
theorem C2_counterexample :
    generate_quiz_from_text true (fun _ => .ok okQuizStr) "t" =
      (.ok okQuizJson, [buildPrompt "t"]) ∧
    generate_quiz_from_text true (fun _ => .ok (fenceWrap okQuizStr)) "t" =
      (.error (.valueError "The AI model returned a response that was not valid JSON."),
        [buildPrompt "t"]) :=
  ⟨rfl, rfl⟩

/-- C2 (amended): the code never strips fence markers; every fence-wrapped
model output — whatever its content — fails JSON parsing and raises the
invalid-JSON `ValueError`, so wrapping is never equivalent to the bare
string when the bare string parses. -/
theorem C2_fence_never_stripped (s text : String) :
    generate_quiz_from_text true (fun _ => .ok (fenceWrap s)) text =
      (.error (.valueError "The AI model returned a response that was not valid JSON."),
        [buildPrompt text]) := by
  simp [generate_quiz_from_text, parseJson_fenceWrap]

/-- C3 (counterexample): the pipeline does not reject a response whose
true/false entry has the boolean `true` as its answer instead of the string
literal `"True"` — it returns that response as the quiz with status 200. -/
theorem C3_counterexample :
    generate_quiz_endpoint true "doc.pdf" true (.ok "some document text")
      (fun _ => .ok badTfStr) =
      ⟨.quizBody (.obj badTfKvs), 200, [buildPrompt "some document text"]⟩ := rfl

/-- C3 (amended): the code validates only the presence of the two top-level
keys.  Even when some true/false entry violates the spec's per-entry schema
(`specValidTfEntry` is false for it), the whole parsed response is returned
unchanged with status 200 instead of a schema-violation failure. -/
theorem C3_no_tf_validation (text content : String) (kvs : List (String × Json))
    (es : List Json)
    (ht : ¬ pyStrip text = "")
    (hp : parseJson content = some (Json.obj kvs))
    (hmc : hasKey kvs "multiple_choice" = true)
    (htf : lookupKey kvs "true_false" = some (Json.arr es))
    (hbad : ∃ e ∈ es, specValidTfEntry e = false) :
    generate_quiz_endpoint true "doc.pdf" true (.ok text) (fun _ => .ok content) =
      ⟨.quizBody (Json.obj kvs), 200, [buildPrompt text]⟩ := by
  rw [endpoint_eq_try]
  exact tryBlock_success text content kvs ht hp hmc (hasKey_of_lookupKey _ _ _ htf)

/-- C3 witness: a boolean-answer true/false entry is returned as-is. -/
theorem C3_no_tf_validation_witness :
    generate_quiz_endpoint true "doc.pdf" true (.ok "hello")
      (fun _ => .ok badTfStr) =
      ⟨.quizBody (.obj badTfKvs), 200, [buildPrompt "hello"]⟩ :=
  C3_no_tf_validation "hello" badTfStr badTfKvs [badTfEntry] (by decide) rfl rfl rfl
    ⟨badTfEntry, List.Mem.head _, rfl⟩

/-- C4: extracted text that strips to the empty string makes the request
fail with the empty-content message and status 400, and no network call is
made — regardless of the client state or the network behaviour. -/
theorem C4_empty_content (clientOk : Bool) (api : String → ApiResult)
    (t : String) (h : pyStrip t = "") :
    generate_quiz_endpoint true "doc.pdf" clientOk (.ok t) api =
      ⟨.errorBody "Could not extract any text from the PDF.", 400, []⟩ := by
  rw [endpoint_eq_try, tryBlock_ok_text, if_pos h]

/-- C4 witness: whitespace-only extracted text. -/
theorem C4_empty_content_witness :
    generate_quiz_endpoint true "doc.pdf" true (.ok " \n ") apiConst =
      ⟨.errorBody "Could not extract any text from the PDF.", 400, []⟩ :=
  C4_empty_content true apiConst " \n " rfl

/-- C5 (code bug): on a backend `APIError` the endpoint returns a message
embedding the backend's diagnostic text to the caller, contradicting both
the spec and the code's own comment ("Return a generic server error for
security"). -/
theorem C5_error_leaks :
    generate_quiz_endpoint true "doc.pdf" true (.ok "some document text")
      (fun _ => .apiError "Error code: 429 - rate limited") =
      ⟨.errorBody
        "An internal error occurred: Failed to get a valid response from the AI model: Error code: 429 - rate limited",
        500, [buildPrompt "some document text"]⟩ := rfl

/-- C6: the prompt embeds exactly the first 4000 characters of the extracted
text — its excerpt is `text[:4000]`, of length `min 4000 (length text)`, and
equals the whole text when the text is within the budget. -/
theorem C6_truncation (text : String) :
    buildPrompt text = promptPart1 ++ excerpt text ++ promptPart2 ∧
    (excerpt text).data = text.data.take 4000 ∧
    (excerpt text).data.length = min 4000 text.data.length ∧
    (text.data.length ≤ 4000 → excerpt text = text) := by
  refine ⟨rfl, rfl, ?_, ?_⟩
  · exact List.length_take 4000 text.data
  · intro h
    show (⟨text.data.take 4000⟩ : String) = text
    rw [List.take_of_length_le h]

/-- C6 witness: a short text is kept whole; a 4001-character text is cut to
exactly 4000 characters. -/
theorem C6_truncation_witness :
    excerpt "ab" = "ab" ∧ (excerpt longText).data.length = 4000 := by
  constructor
  · have h2 : ("ab" : String).data.length = 2 := rfl
    exact (C6_truncation "ab").2.2.2 (by omega)
  · have hl : longText.data.length = 4001 := List.length_replicate 4001 'a'
    rw [(C6_truncation longText).2.2.1, hl]
    omega

/-- C7: a model response parsing to an object that lacks `multiple_choice`
or lacks `true_false` makes the request fail (the missing-sections
`ValueError`, surfaced with status 500); the parsed value is not returned as
a quiz. -/
theorem C7_missing_keys (text content : String) (kvs : List (String × Json))
    (ht : ¬ pyStrip text = "")
    (hp : parseJson content = some (Json.obj kvs))
    (hmiss : hasKey kvs "multiple_choice" = false ∨ hasKey kvs "true_false" = false) :
    generate_quiz_endpoint true "doc.pdf" true (.ok text) (fun _ => .ok content) =
      ⟨.errorBody "An internal error occurred: The generated quiz is missing required sections.",
        500, [buildPrompt text]⟩ := by
  rw [endpoint_eq_try]
  exact tryBlock_schema_missing text content kvs ht hp hmiss

/-- C7 witness: a response with only the `multiple_choice` key. -/
theorem C7_missing_keys_witness :
    generate_quiz_endpoint true "doc.pdf" true (.ok "hello")
      (fun _ => .ok missingTfStr) =
      ⟨.errorBody "An internal error occurred: The generated quiz is missing required sections.",
        500, [buildPrompt "hello"]⟩ :=
  C7_missing_keys "hello" missingTfStr missingTfKvs (by decide) rfl (Or.inr rfl)

/-- C8 (counterexample): a document whose bytes do not parse (the empty
stream) is not surfaced as a client-input failure: the extraction exception
reaches the generic handler, which answers with the internal-error message
(embedding the parser's text) and status 500 — the same shape as backend
failures, unlike the 400 of the empty-content case. -/
theorem C8_counterexample :
    generate_quiz_endpoint true "empty.pdf" true (.error "Cannot open empty stream")
      apiConst =
      ⟨.errorBody "An internal error occurred: Cannot open empty stream", 500, []⟩ := rfl

/-- C8 (amended): when extraction raises, the request fails without any
network call (so it is indeed not retried), but it is surfaced by the
generic handler as an internal error with status 500 embedding the parser's
exception text — not as a client-input failure. -/
theorem C8_extraction_error (e : String) (clientOk : Bool) (api : String → ApiResult) :
    generate_quiz_endpoint true "doc.pdf" clientOk (.error e) api =
      ⟨.errorBody ("An internal error occurred: " ++ e), 500, []⟩ := by
  rw [endpoint_eq_try]
  rfl

/-- C9: with the client uninitialized at process start, generation raises
`ConnectionError` with no network call, and the whole request fails with
status 500 — no quiz is produced. -/
theorem C9_uninitialized_client (api : String → ApiResult) (text : String)
    (ht : ¬ pyStrip text = "") :
    generate_quiz_from_text false api text =
      (.error (.connectionError "OpenAI client is not initialized. Check your API key."), []) ∧
    generate_quiz_endpoint true "doc.pdf" false (.ok text) api =
      ⟨.errorBody "An internal error occurred: OpenAI client is not initialized. Check your API key.",
        500, []⟩ := by
  constructor
  · rfl
  · rw [endpoint_eq_try, tryBlock_ok_text, if_neg ht]
    rfl

/-- C9 witness: a concrete request against the uninitialized client. -/
theorem C9_uninitialized_client_witness :
    generate_quiz_from_text false apiConst "hello" =
      (.error (.connectionError "OpenAI client is not initialized. Check your API key."), []) ∧
    generate_quiz_endpoint true "doc.pdf" false (.ok "hello") apiConst =
      ⟨.errorBody "An internal error occurred: OpenAI client is not initialized. Check your API key.",
        500, []⟩ :=
  C9_uninitialized_client apiConst "hello" (by decide)

/-- C10: a model response parsing to an object with both required keys is
returned to the caller exactly as parsed — same members, same order,
entries untouched, extra top-level keys included — with status 200. -/
theorem C10_passthrough (text content : String) (kvs : List (String × Json))
    (ht : ¬ pyStrip text = "")
    (hp : parseJson content = some (Json.obj kvs))
    (hmc : hasKey kvs "multiple_choice" = true)
    (htf : hasKey kvs "true_false" = true) :
    generate_quiz_endpoint true "doc.pdf" true (.ok text) (fun _ => .ok content) =
      ⟨.quizBody (Json.obj kvs), 200, [buildPrompt text]⟩ := by
  rw [endpoint_eq_try]
  exact tryBlock_success text content kvs ht hp hmc htf

set_option maxRecDepth 8192 in
/-- C10 witness: a response with an extra top-level key and one entry of
each kind is passed through unchanged. -/
theorem C10_passthrough_witness :
    generate_quiz_endpoint true "doc.pdf" true (.ok "hello")
      (fun _ => .ok extraKeyStr) =
      ⟨.quizBody (.obj extraKeyKvs), 200, [buildPrompt "hello"]⟩ :=
  C10_passthrough "hello" extraKeyStr extraKeyKvs (by decide) rfl rfl rfl

end Quiz
